import Mathlib

/-!
Verification of the client-side tabular data engine of the dashboard app:
the authenticated transport (`src/services/api.ts`), the auth state holder
(`src/features/auth/authSlice.ts`), the users collection cache
(`src/features/users/usersSlice.ts`), the mock resource endpoint
(`src/services/mockApi.ts`), the pagination hook (`src/hooks/usePagination.ts`),
the table pagination controls (`src/components/common/DataTable.tsx`) and the
query-state updates dispatched by `src/pages/UsersPage.tsx` and
`src/pages/ProductsPage.tsx`.

Each definition is a shallow embedding of the TypeScript source it names.
JavaScript numbers that are only ever integral are modelled as `Nat` or `Int`
(`Int` where the source can drive them negative); `x | null` becomes
`Option`; JS string truthiness (`!!s`, `if (s)`) is modelled explicitly.
-/

/-! ## Data model (src/types/index.ts) -/

/-- `User` from src/types/index.ts (the `UserRole` union is modelled as the
role string; optional fields `avatar?`/`department?` as `Option`). -/
structure User where
  id : String
  email : String
  firstName : String
  lastName : String
  role : String
  avatar : Option String
  department : Option String
  createdAt : String
  updatedAt : String
  isActive : Bool
deriving DecidableEq, Repr

/-- `Partial<User>`: every field optionally present. -/
structure UserPatch where
  id : Option String := none
  email : Option String := none
  firstName : Option String := none
  lastName : Option String := none
  role : Option String := none
  avatar : Option (Option String) := none
  department : Option (Option String) := none
  createdAt : Option String := none
  updatedAt : Option String := none
  isActive : Option Bool := none
deriving DecidableEq, Repr

/-- JS object spread `{ ...u, ...p }` for a `User` and a `Partial<User>`. -/
def mergeUser (p : UserPatch) (u : User) : User where
  id := p.id.getD u.id
  email := p.email.getD u.email
  firstName := p.firstName.getD u.firstName
  lastName := p.lastName.getD u.lastName
  role := p.role.getD u.role
  avatar := p.avatar.getD u.avatar
  department := p.department.getD u.department
  createdAt := p.createdAt.getD u.createdAt
  updatedAt := p.updatedAt.getD u.updatedAt
  isActive := p.isActive.getD u.isActive

/-- `AuthResponse` from src/types/index.ts. -/
structure AuthResponse where
  user : User
  token : String
  refreshToken : String
  expiresIn : Int
deriving DecidableEq, Repr

/-- `AuthState` from src/types/index.ts. -/
structure AuthState where
  user : Option User
  token : Option String
  refreshToken : Option String
  isAuthenticated : Bool
  isLoading : Bool
  error : Option String
deriving DecidableEq, Repr

/-- JS truthiness of a `string | null` value: `null` and `""` are falsy. -/
def jsTruthyStr : Option String → Bool
  | none => false
  | some s => s != ""

/-! ## Auth slice (src/features/auth/authSlice.ts) -/

/-- The reducer cases of `authSlice`: the four plain reducers plus the
`extraReducers` cases for `loginAsync`, `logoutAsync.fulfilled` and
`refreshTokenAsync` (createAsyncThunk cases without a registered reducer are
no-ops and are omitted). -/
inductive AuthAction where
  | setCredentials (payload : AuthResponse)
  | logout
  | clearError
  | updateUser (payload : UserPatch)
  | loginPending
  | loginFulfilled (payload : AuthResponse)
  | loginRejected (msg : String)
  | logoutFulfilled
  | refreshFulfilled (payload : AuthResponse)
  | refreshRejected
deriving DecidableEq, Repr

/-- `authSlice` reducer, line by line from src/features/auth/authSlice.ts
(lines 62-130); `localStorage` side effects are outside the Redux state and
are not part of the state transition. -/
def authReducer (a : AuthAction) (st : AuthState) : AuthState :=
  match a with
  | .setCredentials p =>
      { st with user := some p.user, token := some p.token,
                refreshToken := some p.refreshToken,
                isAuthenticated := true, error := none }
  | .logout =>
      { st with user := none, token := none, refreshToken := none,
                isAuthenticated := false, error := none }
  | .clearError => { st with error := none }
  | .updateUser p =>
      match st.user with
      | some u => { st with user := some (mergeUser p u) }
      | none => st
  | .loginPending => { st with isLoading := true, error := none }
  | .loginFulfilled p =>
      { st with isLoading := false, user := some p.user, token := some p.token,
                refreshToken := some p.refreshToken, isAuthenticated := true }
  | .loginRejected m => { st with isLoading := false, error := some m }
  | .logoutFulfilled =>
      { st with user := none, token := none, refreshToken := none,
                isAuthenticated := false }
  | .refreshFulfilled p =>
      { st with token := some p.token, refreshToken := some p.refreshToken,
                user := some p.user, isAuthenticated := true }
  | .refreshRejected =>
      { st with user := none, token := none, refreshToken := none,
                isAuthenticated := false }

/-- `initialState` of authSlice (lines 12-19): tokens read from localStorage
(modelled as the two `Option String` arguments), and
`isAuthenticated: !!localStorage.getItem(config.tokenKey)` — JS truthiness. -/
def initialAuthState (storedToken storedRefresh : Option String) : AuthState where
  user := none
  token := storedToken
  refreshToken := storedRefresh
  isAuthenticated := jsTruthyStr storedToken
  isLoading := false
  error := none

/-- The auth invariant claimed by C10: `isAuthenticated` holds exactly when
the access token is non-null. -/
def authInvariant (st : AuthState) : Prop :=
  st.isAuthenticated = st.token.isSome

/-! ## Authenticated transport (src/services/api.ts, `baseQueryWithReauth`) -/

/-- Result of one `baseQuery` call: `result.data` or `result.error.status`. -/
inductive QueryResult where
  | ok (body : String)
  | err (status : Nat)
deriving DecidableEq, Repr

/-- Shared state seen by in-flight requests: the Redux auth state plus
counters for the observable signals (refresh calls issued, `logout` actions
dispatched). -/
structure SharedSt where
  auth : AuthState
  refreshCalls : Nat
  logoutSignals : Nat
deriving DecidableEq, Repr

/-- The synchronous block of `baseQueryWithReauth` that runs when a request
receives a 401 (api.ts lines 33-46 up to the refresh `await`): it reads
`auth.refreshToken` from the store; if truthy it issues the refresh call
(counted here; the request then suspends awaiting its outcome — second
component `true`); otherwise it dispatches `logout()`. -/
def reauth401PhaseA (s : SharedSt) : SharedSt × Bool :=
  if jsTruthyStr s.auth.refreshToken then
    ({ s with refreshCalls := s.refreshCalls + 1 }, true)
  else
    ({ s with auth := authReducer AuthAction.logout s.auth,
              logoutSignals := s.logoutSignals + 1 }, false)

/-- The continuation of `baseQueryWithReauth` after the refresh response
arrives (api.ts lines 48-58): on `refreshResult.data` it dispatches
`setCredentials` and retries the original request once (returning the retry's
result verbatim); otherwise it dispatches `logout()` and returns the original
401 error. A request that never awaited a refresh returns the original 401.
Result: (shared state, the request's returned result, number of retries). -/
def reauth401PhaseB (refreshData : Option AuthResponse) (retry : QueryResult)
    (awaitingRefresh : Bool) (s : SharedSt) : SharedSt × QueryResult × Nat :=
  if awaitingRefresh then
    match refreshData with
    | some authData =>
        ({ s with auth := authReducer (AuthAction.setCredentials authData) s.auth },
         retry, 1)
    | none =>
        ({ s with auth := authReducer AuthAction.logout s.auth,
                  logoutSignals := s.logoutSignals + 1 },
         QueryResult.err 401, 0)
  else (s, QueryResult.err 401, 0)

/-- Everything observable about one `baseQueryWithReauth` call. -/
structure TransportTrace where
  result : QueryResult
  state : AuthState
  refreshCalls : Nat
  retries : Nat
  logoutDispatches : Nat
deriving DecidableEq, Repr

/-- `baseQueryWithReauth` (api.ts lines 26-62) for a single request, as a
function of the network's answers: `first` is the initial `baseQuery` result,
`refreshData` the refresh endpoint's `data` (`none` = refresh failed), and
`retry` the result of re-sending the original request. Only a 401 error
triggers the reauth path; any other result is returned untouched. -/
def baseQueryWithReauth (stAuth : AuthState) (first : QueryResult)
    (refreshData : Option AuthResponse) (retry : QueryResult) : TransportTrace :=
  match first with
  | QueryResult.err 401 =>
      let s0 : SharedSt := ⟨stAuth, 0, 0⟩
      let p1 := reauth401PhaseA s0
      let p2 := reauth401PhaseB refreshData retry p1.2 p1.1
      ⟨p2.2.1, p2.1.auth, p2.1.refreshCalls, p2.2.2, p2.1.logoutSignals⟩
  | r => ⟨r, stAuth, 0, 0, 0⟩

/-- Phase A for `n` concurrent requests: the schedule in which every request
has received its 401 and resumed up to its refresh `await` (or its logout
dispatch) before any refresh response is delivered. Returns the per-request
awaiting flags in order. -/
def runPhaseAList : Nat → SharedSt → SharedSt × List Bool
  | 0, s => (s, [])
  | Nat.succ n, s =>
      let p := reauth401PhaseA s
      let rest := runPhaseAList n p.1
      (rest.1, p.2 :: rest.2)

/-- Phase B for the same requests, delivered in order, all sharing one
refresh outcome `refreshData` and retry result `retry`. -/
def runPhaseBList (refreshData : Option AuthResponse) (retry : QueryResult) :
    List Bool → SharedSt → SharedSt × List (QueryResult × Nat)
  | [], s => (s, [])
  | f :: fs, s =>
      let p := reauth401PhaseB refreshData retry f s
      let rest := runPhaseBList refreshData retry fs p.1
      (rest.1, p.2 :: rest.2)

/-- `n` concurrent requests that all receive a 401 before any of them
resumes: each runs phase A (read token, issue refresh), then each receives
its refresh outcome and runs phase B. Returns the final shared state and the
per-request (result, retries) pairs. -/
def concurrent401Run (n : Nat) (refreshData : Option AuthResponse)
    (retry : QueryResult) (stAuth : AuthState) :
    SharedSt × List (QueryResult × Nat) :=
  let pA := runPhaseAList n ⟨stAuth, 0, 0⟩
  runPhaseBList refreshData retry pA.2 pA.1

/-- A logged-in auth state with both tokens present. -/
def sampleUser : User where
  id := "user-1"
  email := "user1@enterprise.com"
  firstName := "John"
  lastName := "Smith"
  role := "user"
  avatar := none
  department := some "Engineering"
  createdAt := "2026-01-01T00:00:00.000Z"
  updatedAt := "2026-01-02T00:00:00.000Z"
  isActive := true

/-- An `AuthResponse` as the mock refresh endpoint would return it. -/
def sampleAuthResponse : AuthResponse where
  user := sampleUser
  token := "mock-jwt-token-2"
  refreshToken := "mock-refresh-token-2"
  expiresIn := 3600

/-- Auth state of a logged-in session (both tokens present and truthy). -/
def loggedInAuthState : AuthState where
  user := some sampleUser
  token := some "mock-jwt-token-1"
  refreshToken := some "mock-refresh-token-1"
  isAuthenticated := true
  isLoading := false
  error := none

/-! ## Query state (src/types/index.ts `TableState`, slice reducer
`setTableState`, and the updates the pages dispatch) -/

/-- `SortConfig` from src/types/index.ts (`direction` as a Bool: true = asc). -/
structure SortConfig where
  field : String
  ascending : Bool
deriving DecidableEq, Repr

/-- `FilterConfig` from src/types/index.ts; the operator union and the
`string | number | string[] | number[]` value are opaque to every claim and
are carried as strings. -/
structure FilterConfig where
  field : String
  op : String
  value : String
deriving DecidableEq, Repr

/-- `TableState` from src/types/index.ts. -/
structure TableState where
  page : Nat
  pageSize : Nat
  sort : Option SortConfig
  filters : List FilterConfig
  search : String
deriving DecidableEq, Repr

/-- `Partial<TableState>`: the payload of `setTableState`. -/
structure TableStateUpdate where
  page : Option Nat := none
  pageSize : Option Nat := none
  sort : Option (Option SortConfig) := none
  filters : Option (List FilterConfig) := none
  search : Option String := none
deriving DecidableEq, Repr

/-- `setTableState` (usersSlice.ts lines 103-105, identical in
productsSlice): `state.tableState = { ...state.tableState, ...payload }`. -/
def setTableState (p : TableStateUpdate) (st : TableState) : TableState where
  page := p.page.getD st.page
  pageSize := p.pageSize.getD st.pageSize
  sort := p.sort.getD st.sort
  filters := p.filters.getD st.filters
  search := p.search.getD st.search

/-- `initialState.tableState` of usersSlice/productsSlice. -/
def initialTableState : TableState where
  page := 1
  pageSize := 25
  sort := none
  filters := []
  search := ""

/-- `handlePageChange` in UsersPage.tsx (and ProductsPage.tsx):
`dispatch(setTableState({ page }))`. -/
def handlePageChange (page : Nat) (st : TableState) : TableState :=
  setTableState { page := some page } st

/-- `handlePageSizeChange` in UsersPage.tsx (and ProductsPage.tsx):
`dispatch(setTableState({ pageSize, page: 1 }))`. -/
def handlePageSizeChange (pageSize : Nat) (st : TableState) : TableState :=
  setTableState { pageSize := some pageSize, page := some 1 } st

/-- The debounced-search effect in UsersPage.tsx (and ProductsPage.tsx):
`dispatch(setTableState({ search: debouncedSearch, page: 1 }))`. -/
def searchEffectDispatch (debouncedSearch : String) (st : TableState) : TableState :=
  setTableState { search := some debouncedSearch, page := some 1 } st

/-- The query arguments ProductsPage.tsx passes to `fetchProducts`. -/
structure ProductsQueryArgs where
  page : Nat
  pageSize : Nat
  search : String
  category : String
deriving DecidableEq, Repr

/-- The fetch effect of ProductsPage.tsx (lines 93-101): the emitted request
descriptor is built from the current `tableState` page/pageSize, the
debounced search text and the component-local `categoryFilter`; a category
change re-runs this effect with the tableState (and hence the page) as it
stands. -/
def fetchProductsArgs (ts : TableState) (debouncedSearch categoryFilter : String) :
    ProductsQueryArgs where
  page := ts.page
  pageSize := ts.pageSize
  search := debouncedSearch
  category := categoryFilter

/-! ## Users collection cache (src/features/users/usersSlice.ts) -/

/-- The `pagination` object of `UsersState` and of `PaginatedResponse`.
`total` is an `Int` because `deleteUser.fulfilled` decrements it
unconditionally. -/
structure Pagination where
  page : Nat
  pageSize : Nat
  total : Int
  totalPages : Nat
deriving DecidableEq, Repr

/-- `PaginatedResponse<User>` from src/types/index.ts. -/
structure PaginatedResponse where
  data : List User
  pagination : Pagination
deriving DecidableEq, Repr

/-- `UsersState` from usersSlice.ts lines 10-25. -/
structure UsersState where
  users : List User
  selectedUser : Option User
  tableState : TableState
  pagination : Pagination
  isLoading : Bool
  isCreating : Bool
  isUpdating : Bool
  isDeleting : Bool
  error : Option String
deriving DecidableEq, Repr

/-- `initialState` of usersSlice (lines 27-48). -/
def initialUsersState : UsersState where
  users := []
  selectedUser := none
  tableState := initialTableState
  pagination := { page := 1, pageSize := 25, total := 0, totalPages := 0 }
  isLoading := false
  isCreating := false
  isUpdating := false
  isDeleting := false
  error := none

/-- `fetchUsers.pending` (lines 123-126). -/
def fetchUsersPending (st : UsersState) : UsersState :=
  { st with isLoading := true, error := none }

/-- `fetchUsers.fulfilled` (lines 127-131). -/
def fetchUsersFulfilled (resp : PaginatedResponse) (st : UsersState) : UsersState :=
  { st with isLoading := false, users := resp.data, pagination := resp.pagination }

/-- JS `m || d` for an optional error message: `undefined` and `""` fall back
to the default. -/
def jsOrDefault (m : Option String) (d : String) : String :=
  match m with
  | some s => if s = "" then d else s
  | none => d

/-- `fetchUsers.rejected` (lines 132-135):
`state.error = action.error.message || 'Failed to fetch users'`; nothing else
is touched. -/
def fetchUsersRejected (msg : Option String) (st : UsersState) : UsersState :=
  { st with isLoading := false,
            error := some (jsOrDefault msg "Failed to fetch users") }

/-- `createUser.fulfilled` (lines 153-157): unshift the created user and
increment `total`. -/
def createUserFulfilled (u : User) (st : UsersState) : UsersState :=
  { st with isCreating := false,
            users := u :: st.users,
            pagination := { st.pagination with total := st.pagination.total + 1 } }

/-- `deleteUser.fulfilled` (lines 186-193): filter the row out, decrement
`total`, clear `selectedUser` if it pointed at the deleted id. -/
def deleteUserFulfilled (id : String) (st : UsersState) : UsersState :=
  { st with isDeleting := false,
            users := st.users.filter (fun u => u.id != id),
            pagination := { st.pagination with total := st.pagination.total - 1 },
            selectedUser :=
              match st.selectedUser with
              | some su => if su.id = id then none else some su
              | none => none }

/-! ## Mock resource endpoint (src/services/mockApi.ts `getUsers`) -/

/-- `Math.ceil(a / b)` for natural `a` and positive natural `b`. -/
def jsCeilDiv (a b : Nat) : Nat := (a + b - 1) / b

/-- JS `big.includes(sub)`: `sub` occurs contiguously in `big`. -/
def listContainsSub (big sub : List Char) : Bool :=
  match big with
  | [] => sub.isEmpty
  | _ :: t => sub.isPrefixOf big || listContainsSub t sub

/-- The search predicate of `mockApi.getUsers` (lines 141-148):
`firstName`/`lastName`/`email` lowercased and tested with `includes`
(contiguous substring). -/
def userMatchesSearch (searchLower : String) (u : User) : Bool :=
  listContainsSub u.firstName.toLower.toList searchLower.toList ||
  listContainsSub u.lastName.toLower.toList searchLower.toList ||
  listContainsSub u.email.toLower.toList searchLower.toList

/-- `mockApi.getUsers` (lines 137-164) minus the artificial network delay:
filter when `search` is truthy, slice `[start, start+pageSize)`, and report
`total = filtered.length`, `totalPages = Math.ceil(filtered.length / pageSize)`. -/
def getUsers (allUsers : List User) (page pageSize : Nat) (search : String) :
    PaginatedResponse :=
  let filtered :=
    if search = "" then allUsers
    else allUsers.filter (userMatchesSearch search.toLower)
  let start := (page - 1) * pageSize
  { data := (filtered.drop start).take pageSize,
    pagination := { page := page, pageSize := pageSize,
                    total := (filtered.length : Int),
                    totalPages := jsCeilDiv filtered.length pageSize } }

/-! ## Pagination hook (src/hooks/usePagination.ts) and DataTable paging
buttons (src/components/common/DataTable.tsx) -/

/-- `goToPage` (usePagination.ts lines 46-52):
`Math.max(1, Math.min(newPage, totalPages))`. -/
def goToPage (newPage totalPages : Int) : Int :=
  max 1 (min newPage totalPages)

/-- `nextPage` (lines 54-58): increments only when `hasNextPage`
(`page < totalPages`). -/
def hookNextPage (page totalPages : Int) : Int :=
  if page < totalPages then page + 1 else page

/-- `previousPage` (lines 60-64): decrements only when `hasPreviousPage`
(`page > 1`). -/
def hookPreviousPage (page : Int) : Int :=
  if 1 < page then page - 1 else page

/-- The DataTable next-page button (DataTable.tsx lines 258-266): disabled
when `page >= totalPages` (the `isLoading` disable is orthogonal and modelled
as false), otherwise `onPageChange(page + 1)`. -/
def tableNextButton (page totalPages : Int) : Int :=
  if totalPages ≤ page then page else page + 1

/-- The DataTable previous-page button (DataTable.tsx lines 249-257):
disabled when `page <= 1`, otherwise `onPageChange(page - 1)`. -/
def tablePrevButton (page : Int) : Int :=
  if page ≤ 1 then page else page - 1

/-! ## Windowed range calculator -/

/-- Error kind of the window calculator (spec section 7). -/
inductive WindowError where
  | invalidArgument
deriving DecidableEq, Repr

/-- `VisibleWindow` (spec section 3). Indices are integers so that the
sentinel arithmetic of the spec formulas (`rowCount - 1 = -1` when
`rowCount = 0`) is preserved; the window is empty when
`endIndex < startIndex`. -/
structure VisibleWindow where
  startIndex : Int
  endIndex : Int
  offsetTopPx : Int
  totalHeightPx : Int
deriving DecidableEq, Repr

/-- `Math.ceil(a / b)` on integers with positive `b` (`Int` division in Lean
is Euclidean, which for a positive divisor is floor division, so negating
twice yields the ceiling). -/
def ceilDivInt (a b : Int) : Int := -((-a) / b)

/-- Modelled from the spec: the Windowed Range Calculator `computeWindow`
(spec section 4.1). Its implementation lives in the third-party virtualizer
consumed by DataTable.tsx (lines 88-95) and is not part of this repository's
sources, so the definition follows the spec formulas literally:
`startIndex = max(0, floor(scrollTop / rowHeight) - overscan)`,
`visibleCount = ceil(viewportHeight / rowHeight) + 2*overscan`,
`endIndex = min(rowCount - 1, startIndex + visibleCount - 1)`,
`offsetTopPx = startIndex * rowHeight`, `totalHeightPx = rowCount * rowHeight`,
failing with `InvalidArgument` when `rowHeight ≤ 0`. -/
def computeWindow (rowCount rowHeight scrollTop viewportHeight overscan : Int) :
    Except WindowError VisibleWindow :=
  if rowHeight ≤ 0 then Except.error WindowError.invalidArgument
  else
    Except.ok
      { startIndex := max 0 (scrollTop / rowHeight - overscan)
        endIndex := min (rowCount - 1)
          (max 0 (scrollTop / rowHeight - overscan) +
            (ceilDivInt viewportHeight rowHeight + 2 * overscan) - 1)
        offsetTopPx := max 0 (scrollTop / rowHeight - overscan) * rowHeight
        totalHeightPx := rowCount * rowHeight }

/-! ## Theorems -/

/-- C1: with two concurrent requests that both receive a 401 before either
resumes, `baseQueryWithReauth` issues one refresh call per request — two in
total, not at most one — and when the refresh fails each request dispatches
its own `logout`, so two logout signals are emitted; each request ends with
the original 401 (`AuthExpired`) and zero retries. This evaluates the code
at the failing input of the claim. -/
theorem c1_concurrent_401s_yield_one_refresh_per_request :
    (concurrent401Run 2 none (QueryResult.err 401) loggedInAuthState).1.refreshCalls = 2 ∧
    (concurrent401Run 2 none (QueryResult.err 401) loggedInAuthState).1.logoutSignals = 2 ∧
    (concurrent401Run 2 none (QueryResult.err 401) loggedInAuthState).2 =
      [(QueryResult.err 401, 0), (QueryResult.err 401, 0)] := by
  decide

/-- C2: a single request that receives a 401 while a (truthy) refresh token
is present triggers exactly one refresh call; on refresh success the original
request is re-sent exactly once and the retry's result — including a second
401 — is returned verbatim as the terminal outcome with no further refresh;
on refresh failure there is no retry. -/
theorem c2_single_401_single_refresh (stAuth : AuthState)
    (refreshData : Option AuthResponse) (retry : QueryResult)
    (hrt : jsTruthyStr stAuth.refreshToken = true) :
    (baseQueryWithReauth stAuth (QueryResult.err 401) refreshData retry).refreshCalls = 1 ∧
    (baseQueryWithReauth stAuth (QueryResult.err 401) refreshData retry).result =
      (match refreshData with
       | some _ => retry
       | none => QueryResult.err 401) ∧
    (baseQueryWithReauth stAuth (QueryResult.err 401) refreshData retry).retries =
      (match refreshData with
       | some _ => 1
       | none => 0) := by
  cases refreshData <;>
    simp [baseQueryWithReauth, reauth401PhaseA, reauth401PhaseB, hrt]

/-- Witness for C2 at a concrete logged-in state, successful refresh and a
second 401 on the retry. -/
theorem c2_single_401_single_refresh_witness :
    (baseQueryWithReauth loggedInAuthState (QueryResult.err 401)
        (some sampleAuthResponse) (QueryResult.err 401)).refreshCalls = 1 ∧
    (baseQueryWithReauth loggedInAuthState (QueryResult.err 401)
        (some sampleAuthResponse) (QueryResult.err 401)).result = QueryResult.err 401 ∧
    (baseQueryWithReauth loggedInAuthState (QueryResult.err 401)
        (some sampleAuthResponse) (QueryResult.err 401)).retries = 1 :=
  c2_single_401_single_refresh loggedInAuthState (some sampleAuthResponse)
    (QueryResult.err 401) (by decide)

/-- C3: a request that receives a 401 when no (truthy) refresh token is
present, or whose refresh call fails, leaves the store with both tokens
cleared and `isAuthenticated = false`, and dispatches the `logout` signal
exactly once. -/
theorem c3_terminal_auth_failure_clears_credentials (stAuth : AuthState)
    (refreshData : Option AuthResponse) (retry : QueryResult)
    (h : jsTruthyStr stAuth.refreshToken = false ∨ refreshData = none) :
    (baseQueryWithReauth stAuth (QueryResult.err 401) refreshData retry).state.token = none ∧
    (baseQueryWithReauth stAuth (QueryResult.err 401) refreshData retry).state.refreshToken = none ∧
    (baseQueryWithReauth stAuth (QueryResult.err 401) refreshData retry).state.isAuthenticated = false ∧
    (baseQueryWithReauth stAuth (QueryResult.err 401) refreshData retry).logoutDispatches = 1 := by
  rcases h with h | h
  · cases refreshData <;>
      simp [baseQueryWithReauth, reauth401PhaseA, reauth401PhaseB, authReducer, h]
  · subst h
    by_cases ht : jsTruthyStr stAuth.refreshToken <;>
      simp [baseQueryWithReauth, reauth401PhaseA, reauth401PhaseB, authReducer, ht]

/-- Witness for C3: logged-in state whose refresh call fails. -/
theorem c3_terminal_auth_failure_clears_credentials_witness :
    (baseQueryWithReauth loggedInAuthState (QueryResult.err 401) none
        (QueryResult.err 401)).state.token = none ∧
    (baseQueryWithReauth loggedInAuthState (QueryResult.err 401) none
        (QueryResult.err 401)).state.refreshToken = none ∧
    (baseQueryWithReauth loggedInAuthState (QueryResult.err 401) none
        (QueryResult.err 401)).state.isAuthenticated = false ∧
    (baseQueryWithReauth loggedInAuthState (QueryResult.err 401) none
        (QueryResult.err 401)).logoutDispatches = 1 :=
  c3_terminal_auth_failure_clears_credentials loggedInAuthState none
    (QueryResult.err 401) (Or.inr rfl)

/-- A `setTableState` payload that changes only the filters. -/
def filtersOnlyUpdate : TableStateUpdate :=
  { filters := some [{ field := "role", op := "eq", value := "admin" }] }

/-- C4 counterexample: a query-state update that changes a filter does not
reset the page. Starting from the initial table state, navigating to page 3
and then applying a filters-changing `setTableState` payload yields a
changed filter list but page 3, not page 1 — refuting the claim that any
filter change yields a descriptor with `page = 1`. -/
theorem c4_filter_change_keeps_page_counterexample :
    (setTableState filtersOnlyUpdate (handlePageChange 3 initialTableState)).filters ≠
      (handlePageChange 3 initialTableState).filters ∧
    (setTableState filtersOnlyUpdate (handlePageChange 3 initialTableState)).page = 3 := by
  decide

/-- C4 (amended): updates that change `pageSize` or the (debounced) search
text are dispatched with `page = 1`; an update changing only `page` leaves
`pageSize`, `sort`, `filters` and `search` untouched; but a filter change
does not reset the page — the ProductsPage category filter re-emits the
request descriptor with the page exactly as it stands. -/
theorem c4_page_reset_on_size_and_search_only (st : TableState) (p sz : Nat)
    (q ds c : String) :
    (handlePageSizeChange sz st).page = 1 ∧
    (searchEffectDispatch q st).page = 1 ∧
    (handlePageChange p st).pageSize = st.pageSize ∧
    (handlePageChange p st).sort = st.sort ∧
    (handlePageChange p st).filters = st.filters ∧
    (handlePageChange p st).search = st.search ∧
    (fetchProductsArgs st ds c).page = st.page := by
  simp [handlePageSizeChange, searchEffectDispatch, handlePageChange,
        setTableState, fetchProductsArgs]

/-- C5: a failed `fetchUsers` call (pending then rejected) records the error
(falling back to the default message) and stops loading, while the previously
stored page — `users` and `pagination` — and the selection are left exactly
as they were before the call. -/
theorem c5_fetch_failure_keeps_stale_page (st : UsersState) (msg : Option String) :
    (fetchUsersRejected msg (fetchUsersPending st)).users = st.users ∧
    (fetchUsersRejected msg (fetchUsersPending st)).pagination = st.pagination ∧
    (fetchUsersRejected msg (fetchUsersPending st)).selectedUser = st.selectedUser ∧
    (fetchUsersRejected msg (fetchUsersPending st)).error =
      some (jsOrDefault msg "Failed to fetch users") ∧
    (fetchUsersRejected msg (fetchUsersPending st)).isLoading = false := by
  simp [fetchUsersRejected, fetchUsersPending]

/-- C8: `createUser.fulfilled` increments `total` by exactly one,
`deleteUser.fulfilled` decrements it by exactly one, and a create followed by
a delete of the created user's id restores `total` to its pre-create value. -/
theorem c8_create_delete_restores_total (st : UsersState) (u : User) (anyId : String) :
    (createUserFulfilled u st).pagination.total = st.pagination.total + 1 ∧
    (deleteUserFulfilled anyId st).pagination.total = st.pagination.total - 1 ∧
    (deleteUserFulfilled u.id (createUserFulfilled u st)).pagination.total =
      st.pagination.total := by
  simp [createUserFulfilled, deleteUserFulfilled]

/-- C6: once a positive `totalPages` is known, every page-navigation
operation keeps the page inside `[1, totalPages]`: `goToPage` clamps an
arbitrary request into the interval, and the hook's `nextPage`/`previousPage`
and the DataTable next/previous buttons (enabled only inside the interval)
map an in-range page to an in-range page. -/
theorem c6_page_navigation_clamped (p tp cur : Int) (htp : 1 ≤ tp)
    (hc1 : 1 ≤ cur) (hc2 : cur ≤ tp) :
    (1 ≤ goToPage p tp ∧ goToPage p tp ≤ tp) ∧
    (1 ≤ hookNextPage cur tp ∧ hookNextPage cur tp ≤ tp) ∧
    (1 ≤ hookPreviousPage cur ∧ hookPreviousPage cur ≤ tp) ∧
    (1 ≤ tableNextButton cur tp ∧ tableNextButton cur tp ≤ tp) ∧
    (1 ≤ tablePrevButton cur ∧ tablePrevButton cur ≤ tp) := by
  unfold goToPage hookNextPage hookPreviousPage tableNextButton tablePrevButton
  split_ifs <;> omega

/-- Witness for C6 at the claim's example: `total = 137`, `pageSize = 25`
give `totalPages = 6`; requesting page 7 is clamped, and the buttons keep
page 6 in range. -/
theorem c6_page_navigation_clamped_witness :
    (1 ≤ goToPage 7 6 ∧ goToPage 7 6 ≤ 6) ∧
    (1 ≤ hookNextPage 6 6 ∧ hookNextPage 6 6 ≤ 6) ∧
    (1 ≤ hookPreviousPage 6 ∧ hookPreviousPage 6 ≤ 6) ∧
    (1 ≤ tableNextButton 6 6 ∧ tableNextButton 6 6 ≤ 6) ∧
    (1 ≤ tablePrevButton 6 ∧ tablePrevButton 6 ≤ 6) :=
  c6_page_navigation_clamped 7 6 6 (by decide) (by decide) (by decide)

/-- `Math.ceil(a / b)` on naturals agrees with the exact rational ceiling
when the divisor is positive. -/
theorem jsCeilDiv_eq_ceil (a b : Nat) (hb : 0 < b) :
    jsCeilDiv a b = ⌈(a : ℚ) / (b : ℚ)⌉₊ := by
  have hbQ : (0 : ℚ) < (b : ℚ) := by exact_mod_cast hb
  unfold jsCeilDiv
  apply le_antisymm
  · rw [Nat.div_le_iff_le_mul_add_pred hb]
    have h1 : (a : ℚ) ≤ ((b : ℚ)) * (⌈(a : ℚ) / (b : ℚ)⌉₊ : ℚ) := by
      have h := Nat.le_ceil ((a : ℚ) / (b : ℚ))
      rw [div_le_iff₀ hbQ] at h
      linarith [h]
    have h2 : a ≤ b * ⌈(a : ℚ) / (b : ℚ)⌉₊ := by exact_mod_cast h1
    omega
  · apply Nat.ceil_le.2
    rw [div_le_iff₀ hbQ]
    have hdm := Nat.div_add_mod (a + b - 1) b
    have hml : (a + b - 1) % b < b := Nat.mod_lt _ hb
    have key : a ≤ b * ((a + b - 1) / b) := by omega
    have keyQ : (a : ℚ) ≤ (b : ℚ) * (((a + b - 1) / b : Nat) : ℚ) := by
      exact_mod_cast key
    linarith [keyQ]

/-- C7: for every users query with a positive page size, the reported
`totalPages` is exactly the ceiling of `total / pageSize`, where `total` is
the count of items matching the search filter. -/
theorem c7_totalPages_is_ceil (allUsers : List User) (page pageSize : Nat)
    (search : String) (h : 0 < pageSize) :
    (getUsers allUsers page pageSize search).pagination.totalPages =
      ⌈((getUsers allUsers page pageSize search).pagination.total : ℚ) /
        (pageSize : ℚ)⌉₊ := by
  simp only [getUsers]
  push_cast
  exact jsCeilDiv_eq_ceil _ pageSize h

/-- Witness for C7 on a concrete one-user collection with page size 25. -/
theorem c7_totalPages_is_ceil_witness :
    (getUsers [sampleUser] 1 25 "").pagination.totalPages =
      ⌈((getUsers [sampleUser] 1 25 "").pagination.total : ℚ) / ((25 : Nat) : ℚ)⌉₊ :=
  c7_totalPages_is_ceil [sampleUser] 1 25 "" (by decide)

/-- C9 counterexample: with `rowHeight > 0` the claimed bounds fail. At
`rowCount = 1, rowHeight = 1, scrollTop = 5` (scroll offset past the end of
the content) and at `rowCount = 5, viewportHeight = 0` the spec formulas
produce an empty window (`endIndex < startIndex`) although `rowCount ≠ 0`,
refuting "0 ≤ startIndex ≤ endIndex < rowCount or an empty window iff
rowCount = 0". -/
theorem c9_window_bounds_counterexample :
    (∃ w, computeWindow 1 1 5 1 0 = Except.ok w ∧ w.endIndex < w.startIndex) ∧
    (∃ w, computeWindow 5 1 0 0 0 = Except.ok w ∧ w.endIndex < w.startIndex) :=
  ⟨⟨_, rfl, by decide⟩, ⟨_, rfl, by decide⟩⟩

/-- C9 (amended): for `rowHeight ≤ 0` the calculator fails with
`InvalidArgument`; for `rowCount ≥ 0, rowHeight > 0` — provided additionally
that the viewport is nonempty (`viewportHeight > 0`), `overscan ≥ 0`, and
the scroll offset lies within the content (`scrollTop < rowCount * rowHeight`)
— it returns `totalHeightPx = rowCount * rowHeight` exactly and indices with
`0 ≤ startIndex ≤ endIndex < rowCount`, the window being empty iff
`rowCount = 0`. -/
theorem c9_window_bounds (rc rh st vh ov : Int) (hrc : 0 ≤ rc) (hvh : 0 < vh)
    (hov : 0 ≤ ov) (hst : st < rc * rh) :
    (rh ≤ 0 → computeWindow rc rh st vh ov = Except.error WindowError.invalidArgument) ∧
    (0 < rh → ∃ w, computeWindow rc rh st vh ov = Except.ok w ∧
      w.totalHeightPx = rc * rh ∧ 0 ≤ w.startIndex ∧ w.endIndex < rc ∧
      ((w.endIndex < w.startIndex) ↔ rc = 0) ∧
      (rc = 0 ∨ w.startIndex ≤ w.endIndex)) := by
  constructor
  · intro hle
    simp [computeWindow, hle]
  · intro hpos
    have hne : ¬ rh ≤ 0 := not_le.2 hpos
    have hfloor_lt : st / rh < rc := by
      rw [Int.ediv_lt_iff_lt_mul hpos]
      exact hst
    have hvc : 1 ≤ ceilDivInt vh rh + 2 * ov := by
      have hneg : (-vh) / rh < 0 := Int.ediv_neg' (by omega) hpos
      unfold ceilDivInt
      omega
    set s := max 0 (st / rh - ov) with hs
    set e := min (rc - 1) (s + (ceilDivInt vh rh + 2 * ov) - 1) with he
    have hs0 : 0 ≤ s := le_max_left _ _
    have he1 : e ≤ rc - 1 := by
      rw [he]; exact min_le_left _ _
    have hse : rc ≠ 0 → s ≤ e := by
      intro h0
      have h1 : st / rh - ov ≤ rc - 1 := by omega
      have hsle : s ≤ rc - 1 := by
        rw [hs]; exact max_le (by omega) h1
      rw [he]
      exact le_min hsle (by omega)
    refine ⟨⟨s, e, s * rh, rc * rh⟩, ?_, rfl, hs0, ?_, ?_, ?_⟩
    · simp only [computeWindow, if_neg hne]
    · show e < rc
      omega
    · show (e < s) ↔ rc = 0
      constructor
      · intro hlt
        by_contra h0
        exact absurd (hse h0) (by omega)
      · intro h0
        omega
    · show rc = 0 ∨ s ≤ e
      by_cases h0 : rc = 0
      · exact Or.inl h0
      · exact Or.inr (hse h0)

/-- Witness for C9 at the spec's scenario scale: 137 rows of height 52,
viewport 600, overscan 10, scrolled to the top. -/
theorem c9_window_bounds_witness :
    ∃ w, computeWindow 137 52 0 600 10 = Except.ok w ∧
      w.totalHeightPx = 137 * 52 ∧ 0 ≤ w.startIndex ∧ w.endIndex < 137 ∧
      ((w.endIndex < w.startIndex) ↔ (137 : Int) = 0) ∧
      ((137 : Int) = 0 ∨ w.startIndex ≤ w.endIndex) :=
  (c9_window_bounds 137 52 0 600 10 (by decide) (by decide) (by decide)
    (by decide)).2 (by decide)

/-- C10 counterexample: reachability includes the initial state itself, and
initialization computes `isAuthenticated` by JS truthiness: a persisted
empty-string access token yields `token = some ""` (non-null) with
`isAuthenticated = false`, refuting the biconditional. -/
theorem c10_initial_empty_token_counterexample :
    ¬ authInvariant (initialAuthState (some "") none) := by
  simp [authInvariant, initialAuthState, jsTruthyStr]

/-- Every auth reducer case preserves the invariant
`isAuthenticated = token.isSome`. -/
theorem authReducer_preserves_invariant (a : AuthAction) (st : AuthState)
    (h : authInvariant st) : authInvariant (authReducer a st) := by
  cases a with
  | updateUser p =>
      cases hu : st.user <;> simp_all [authReducer, authInvariant]
  | _ => simp_all [authReducer, authInvariant]

/-- Folding any action sequence over an invariant-satisfying state keeps the
invariant. -/
theorem foldl_authReducer_invariant (acts : List AuthAction) :
    ∀ st : AuthState, authInvariant st →
      authInvariant (acts.foldl (fun s a => authReducer a s) st) := by
  induction acts with
  | nil => intro st h; simpa using h
  | cons a as ih =>
      intro st h
      rw [List.foldl_cons]
      exact ih _ (authReducer_preserves_invariant a st h)

/-- C10 (amended): provided the persisted access token read at start-up is
not the empty string, every state reachable from the initial state by any
sequence of auth actions satisfies `isAuthenticated = true` iff the access
token is non-null. -/
theorem c10_auth_invariant_reachable (storedToken storedRefresh : Option String)
    (acts : List AuthAction) (h : storedToken ≠ some "") :
    authInvariant
      (acts.foldl (fun s a => authReducer a s)
        (initialAuthState storedToken storedRefresh)) := by
  have base : authInvariant (initialAuthState storedToken storedRefresh) := by
    cases storedToken with
    | none => simp [authInvariant, initialAuthState, jsTruthyStr]
    | some s =>
        have hs : s ≠ "" := fun e => h (by rw [e])
        simp [authInvariant, initialAuthState, jsTruthyStr, hs]
  exact foldl_authReducer_invariant acts _ base

/-- Witness for C10: no persisted token, then logout. -/
theorem c10_auth_invariant_reachable_witness :
    authInvariant
      ([AuthAction.logout].foldl (fun s a => authReducer a s)
        (initialAuthState none none)) :=
  c10_auth_invariant_reachable none none [AuthAction.logout] (by decide)
